import Mathlib

/-!
Shallow embedding of `packages/gatsby/src/db/loki/index.js`: the loki-backed
collection registry and persistence lifecycle (meta-collection schema,
`ensureNodeCollections`, `startFileDb`, `startInMemory`, `start`, `saveState`,
`getDb`).

The document-store engine (lokijs), the filesystem (`fs-extra`), `path.dirname`
and the uuid generator are external collaborators of the module; they are
modelled at their interface boundary as the spec describes them (an idempotent
`addCollection`, a directory-ensuring filesystem, an autoload that reads the
prior saved state at the path, and an opaque random name). I/O outcomes that
are decided outside the module (directory-creation failure, engine load
failure, engine write failure) enter the model as an explicit environment.
-/

namespace GatsbyLoki

/-- Per-collection configuration passed to the engine: the `unique` fields and
the `indices` fields, as in the `options` objects of `colls`. -/
structure CollOptions where
  unique : List String
  indices : List String
deriving DecidableEq, Repr

/-- A named collection held by the engine handle, together with the
configuration it was created with. -/
structure Collection where
  name : String
  options : CollOptions
deriving DecidableEq, Repr

/-- The engine handle (`new loki(name, ...)`): its internal name and the
collections it currently holds. -/
structure LokiDb where
  name : String
  collections : List Collection
deriving DecidableEq, Repr

/-- The engine's `addCollection(name, options)` at the interface boundary the
spec gives for the external document-store engine: create the collection with
the declared configuration if no collection of that name exists, otherwise
leave the handle unchanged (idempotent add, never an error). -/
def LokiDb.addCollection (db : LokiDb) (n : String) (o : CollOptions) : LokiDb :=
  if db.collections.any (fun c => c.name == n) then db
  else { db with collections := db.collections ++ [{ name := n, options := o }] }

/-- Metadata entry of the `colls` object: a collection name with its options. -/
structure CollInfo where
  name : String
  options : CollOptions
deriving DecidableEq, Repr

/-- The `colls` object of the source: the two meta-collections, in the order
`_.forEach` visits them (`nodeMeta` first, then `nodeTypes`). -/
def colls : List CollInfo :=
  [ { name := "gatsby:nodeMeta",
      options := { unique := ["id"], indices := ["id"] } },
    { name := "gatsby:nodeTypes",
      options := { unique := ["type", "collName"], indices := ["type"] } } ]

/-- `ensureNodeCollections(db)`: `_.forEach(colls, ...)` calling
`db.addCollection(name, options)` for each meta-collection. -/
def ensureNodeCollections (db : LokiDb) : LokiDb :=
  colls.foldl (fun d ci => d.addCollection ci.name ci.options) db

/-- Number of collections of a given name held by a handle. -/
def countName (db : LokiDb) (n : String) : Nat :=
  (db.collections.filter (fun c => c.name == n)).length

/-- A JavaScript value, as far as the `saveFile` option needs: enough to state
truthiness and `_.isString`. -/
inductive JSValue where
  | undefined
  | null
  | bool (b : Bool)
  | num (n : Int)
  | str (s : String)
deriving DecidableEq, Repr

/-- JavaScript truthiness of a `JSValue` (`undefined`, `null`, `false`, `0`
and the empty string are falsy). -/
def truthy : JSValue → Bool
  | JSValue.undefined => false
  | JSValue.null => false
  | JSValue.bool b => b
  | JSValue.num n => n != 0
  | JSValue.str s => s != ""

/-- `_.isString` on a `JSValue`. -/
def isString : JSValue → Bool
  | JSValue.str _ => true
  | _ => false

/-- The string carried by a `JSValue` (only used on values already known to be
strings, as the source does after the `_.isString` guard). -/
def JSValue.asString : JSValue → String
  | JSValue.str s => s
  | _ => ""

/-- A JavaScript `Error` value, carrying its message. -/
structure JsError where
  message : String
deriving DecidableEq, Repr

/-- A value a promise may be rejected with: an `Error` object (engine errors),
or a plain string (the source rejects with the plain string
`No database found.`). -/
inductive RejectionValue where
  | jsError (e : JsError)
  | jsString (s : String)
deriving DecidableEq, Repr

/-- The filesystem at the interface boundary the module uses: the set of
existing directories, and the saved engine states (collection lists) keyed by
save-file path. -/
structure FS where
  dirs : List String
  files : List (String × List Collection)
deriving DecidableEq, Repr

/-- `path.dirname` for forward-slash paths: everything before the final
separator, `.` when there is none. -/
def dirname (p : String) : String :=
  let parts := p.splitOn "/"
  if parts.length ≤ 1 then "." else String.intercalate "/" parts.dropLast

/-- `fs.ensureDir`: make the directory exist (no effect when it already
does). -/
def FS.ensureDir (fs : FS) (d : String) : FS :=
  if fs.dirs.contains d then fs else { fs with dirs := d :: fs.dirs }

/-- Autoload at a path: the engine handle named by the path, holding the prior
saved state when one exists at the path and no collections otherwise. -/
def FS.readDb (fs : FS) (p : String) : LokiDb :=
  { name := p,
    collections := ((fs.files.find? (fun q => q.1 == p)).map Prod.snd).getD [] }

/-- Environment of one call into the module: the filesystem, the outcomes of
the external I/O operations (directory creation, engine autoload, engine
write), and the random name `uuidv4()` would produce. -/
structure Env where
  fs : FS
  ensureDirError : Option JsError
  loadError : Option JsError
  uuid : String
deriving DecidableEq, Repr

/-- The module-level mutable state: `let db`, unset until `start` assigns
it. -/
structure ModuleState where
  db : Option LokiDb
deriving DecidableEq, Repr

/-- The state before `start` is ever called: `db` is unset. -/
def initialState : ModuleState := { db := none }

/-- `startFileDb(saveFile)`: assigns `db = new loki(saveFile, dbOptions)` with
autoload enabled, then settles the promise from the autoload callback. The
assignment to `db` happens before the callback can reject, so the new state
carries the handle even when the returned promise is rejected. -/
def startFileDb (fs : FS) (loadError : Option JsError) (st : ModuleState)
    (saveFile : String) : ModuleState × Except JsError Unit :=
  let st2 : ModuleState := { st with db := some (fs.readDb saveFile) }
  match loadError with
  | some e => (st2, Except.error e)
  | none => (st2, Except.ok ())

/-- `startInMemory()`: assigns `db = new loki(uuidv4())`, a fresh handle with
the random name and no collections. -/
def startInMemory (uuid : String) (st : ModuleState) : ModuleState :=
  { st with db := some { name := uuid, collections := [] } }

/-- `start({ saveFile } = {})`: reject truthy non-string `saveFile`; for a
truthy string, ensure the parent directory then open the file-backed handle
with autoload; otherwise start in memory; finally run
`ensureNodeCollections(db)`. Returns the module state, the filesystem, and
the settled promise. -/
def start (env : Env) (st : ModuleState) (saveFile : JSValue) :
    ModuleState × FS × Except JsError Unit :=
  if truthy saveFile && !(isString saveFile) then
    (st, env.fs, Except.error { message := "saveFile must be a path" })
  else if truthy saveFile then
    let s := saveFile.asString
    match env.ensureDirError with
    | some e => (st, env.fs, Except.error e)
    | none =>
      let fs2 := env.fs.ensureDir (dirname s)
      let r := startFileDb fs2 env.loadError st s
      match r.2 with
      | Except.error e => (r.1, fs2, Except.error e)
      | Except.ok _ =>
        ({ r.1 with db := r.1.db.map ensureNodeCollections }, fs2, Except.ok ())
  else
    let st2 := startInMemory env.uuid st
    ({ st2 with db := st2.db.map ensureNodeCollections }, env.fs, Except.ok ())

/-- `saveState()`: when `db` is set, `db.saveDatabase(cb)` settles the promise
from the engine's write outcome; when `db` is unset, rejects with the plain
string `No database found.`. -/
def saveState (saveError : Option JsError) (st : ModuleState) :
    Except RejectionValue Unit :=
  match st.db with
  | some _ =>
    match saveError with
    | some e => Except.error (RejectionValue.jsError e)
    | none => Except.ok ()
  | none => Except.error (RejectionValue.jsString "No database found.")

/-- `getDb()`: returns the module-level handle, `none` when `start` has not
assigned it. -/
def getDb (st : ModuleState) : Option LokiDb := st.db

/-- The id-index meta-collection with its declared configuration. -/
def nodeMetaColl : Collection :=
  { name := "gatsby:nodeMeta", options := { unique := ["id"], indices := ["id"] } }

/-- The type-index meta-collection with its declared configuration. -/
def nodeTypesColl : Collection :=
  { name := "gatsby:nodeTypes",
    options := { unique := ["type", "collName"], indices := ["type"] } }

/-- A collection carrying one of the two reserved meta names carries the
declared configuration for that name. -/
def metaOptionsOk (c : Collection) : Prop :=
  (c.name = "gatsby:nodeMeta" → c = nodeMetaColl) ∧
  (c.name = "gatsby:nodeTypes" → c = nodeTypesColl)

/-- A filesystem is well formed when every saved state only uses the reserved
meta names with their declared configuration (which is what a save by this
module produces). -/
def FS.wellFormed (fs : FS) : Prop :=
  ∀ p cols, (p, cols) ∈ fs.files → ∀ c ∈ cols, metaOptionsOk c

section Lemmas

theorem addCollection_has (db : LokiDb) (n : String) (o : CollOptions) :
    ((db.addCollection n o).collections.any (fun c => c.name == n)) = true := by
  unfold LokiDb.addCollection
  by_cases h : db.collections.any (fun c => c.name == n) = true
  · simp only [if_pos h]
    exact h
  · simp only [if_neg h, List.any_append, List.any_cons, List.any_nil]
    simp

theorem addCollection_of_has (db : LokiDb) (n : String) (o : CollOptions)
    (h : db.collections.any (fun c => c.name == n) = true) :
    db.addCollection n o = db := by
  unfold LokiDb.addCollection
  simp [h]

theorem addCollection_any_mono (db : LokiDb) (n m : String) (o : CollOptions)
    (h : db.collections.any (fun c => c.name == m) = true) :
    (db.addCollection n o).collections.any (fun c => c.name == m) = true := by
  unfold LokiDb.addCollection
  split
  · exact h
  · simp [List.any_append, h]

theorem ensure_has_meta (d : LokiDb) :
    (ensureNodeCollections d).collections.any
      (fun c => c.name == "gatsby:nodeMeta") = true := by
  unfold ensureNodeCollections colls
  simp only [List.foldl_cons, List.foldl_nil]
  exact addCollection_any_mono _ _ _ _ (addCollection_has d _ _)

theorem ensure_has_types (d : LokiDb) :
    (ensureNodeCollections d).collections.any
      (fun c => c.name == "gatsby:nodeTypes") = true := by
  unfold ensureNodeCollections colls
  simp only [List.foldl_cons, List.foldl_nil]
  exact addCollection_has _ _ _

theorem ensure_of_has (db : LokiDb)
    (hM : db.collections.any (fun c => c.name == "gatsby:nodeMeta") = true)
    (hT : db.collections.any (fun c => c.name == "gatsby:nodeTypes") = true) :
    ensureNodeCollections db = db := by
  unfold ensureNodeCollections colls
  simp only [List.foldl_cons, List.foldl_nil]
  rw [addCollection_of_has _ _ _ hM, addCollection_of_has _ _ _ hT]

theorem countName_addCollection_same (db : LokiDb) (n : String) (o : CollOptions) :
    countName (db.addCollection n o) n =
      if db.collections.any (fun c => c.name == n) then countName db n
      else countName db n + 1 := by
  unfold LokiDb.addCollection countName
  split
  · rfl
  · next h =>
      simp only [if_neg h, List.filter_append]
      simp

theorem countName_addCollection_other (db : LokiDb) (n m : String) (o : CollOptions)
    (h : n ≠ m) :
    countName (db.addCollection n o) m = countName db m := by
  unfold LokiDb.addCollection countName
  split
  · rfl
  · simp [List.filter_append, h]

theorem countName_pos_of_any (db : LokiDb) (n : String)
    (h : db.collections.any (fun c => c.name == n) = true) :
    1 ≤ countName db n := by
  rw [List.any_eq_true] at h
  obtain ⟨c, hc, hcn⟩ := h
  have hmem : c ∈ db.collections.filter (fun c => c.name == n) :=
    List.mem_filter.mpr ⟨hc, hcn⟩
  have := List.length_pos.mpr (List.ne_nil_of_mem hmem)
  unfold countName
  omega

theorem countName_eq_zero_of_not_any (db : LokiDb) (n : String)
    (h : db.collections.any (fun c => c.name == n) = false) :
    countName db n = 0 := by
  rw [List.any_eq_false] at h
  unfold countName
  rw [List.length_eq_zero, List.filter_eq_nil_iff]
  exact h

theorem mem_addCollection (db : LokiDb) (n : String) (o : CollOptions)
    (c : Collection) (h : c ∈ db.collections) :
    c ∈ (db.addCollection n o).collections := by
  unfold LokiDb.addCollection
  split
  · exact h
  · exact List.mem_append_left _ h

theorem addCollection_subset (db : LokiDb) (n : String) (o : CollOptions) :
    ∀ c ∈ (db.addCollection n o).collections,
      c ∈ db.collections ∨ c = { name := n, options := o } := by
  intro c hc
  unfold LokiDb.addCollection at hc
  split at hc
  · exact Or.inl hc
  · rcases List.mem_append.mp hc with h | h
    · exact Or.inl h
    · exact Or.inr (by simpa using h)

theorem addCollection_mem_self_of_ok (db : LokiDb) (n : String) (o : CollOptions)
    (hok : ∀ c ∈ db.collections, c.name = n → c = { name := n, options := o }) :
    ({ name := n, options := o } : Collection) ∈ (db.addCollection n o).collections := by
  unfold LokiDb.addCollection
  split
  · next h =>
      rw [List.any_eq_true] at h
      obtain ⟨c, hc, hcn⟩ := h
      have hc2 : c = { name := n, options := o } := hok c hc (by simpa using hcn)
      rwa [hc2] at hc
  · simp

theorem ensure_mem_of_ok (db : LokiDb)
    (hok : ∀ c ∈ db.collections, metaOptionsOk c) :
    nodeMetaColl ∈ (ensureNodeCollections db).collections ∧
    nodeTypesColl ∈ (ensureNodeCollections db).collections := by
  unfold ensureNodeCollections colls
  simp only [List.foldl_cons, List.foldl_nil]
  constructor
  · apply mem_addCollection
    exact addCollection_mem_self_of_ok db _ _ (fun c hc hn => (hok c hc).1 hn)
  · apply addCollection_mem_self_of_ok
    intro c hc hn
    rcases addCollection_subset _ _ _ c hc with h | h
    · exact (hok c h).2 hn
    · rw [h] at hn
      simp at hn

theorem readDb_ok (fs : FS) (p : String) (hwf : fs.wellFormed) :
    ∀ c ∈ (fs.readDb p).collections, metaOptionsOk c := by
  intro c hc
  unfold FS.readDb at hc
  simp only at hc
  cases hfind : fs.files.find? (fun q => q.1 == p) with
  | none =>
      rw [hfind] at hc
      simp at hc
  | some q =>
      rw [hfind] at hc
      simp only [Option.map_some', Option.getD_some] at hc
      exact hwf q.1 q.2 (List.mem_of_find?_eq_some hfind) c hc

theorem ensureDir_contains (fs : FS) (d : String) :
    (fs.ensureDir d).dirs.contains d = true := by
  unfold FS.ensureDir
  split
  · next h => exact h
  · simp

theorem ensureDir_wellFormed (fs : FS) (d : String) (h : fs.wellFormed) :
    (fs.ensureDir d).wellFormed := by
  unfold FS.ensureDir
  split
  · exact h
  · intro p cols hp
    exact h p cols hp

theorem addCollection_any_other (db : LokiDb) (n m : String) (o : CollOptions)
    (h : (n == m) = false) :
    (db.addCollection n o).collections.any (fun c => c.name == m) =
      db.collections.any (fun c => c.name == m) := by
  unfold LokiDb.addCollection
  split
  · rfl
  · simp [List.any_append, h]

theorem truthy_str (s : String) (hs : s ≠ "") : truthy (JSValue.str s) = true := by
  simp [truthy, hs]

theorem start_nonstring_eq (env : Env) (st : ModuleState) (v : JSValue)
    (hv : truthy v = true) (hnv : isString v = false) :
    start env st v =
      (st, env.fs, Except.error { message := "saveFile must be a path" }) := by
  unfold start
  rw [hv, hnv]
  rfl

theorem start_dirfail_eq (env : Env) (st : ModuleState) (s : String) (e : JsError)
    (hs : s ≠ "") (hd : env.ensureDirError = some e) :
    start env st (JSValue.str s) = (st, env.fs, Except.error e) := by
  unfold start
  rw [truthy_str s hs, hd]
  rfl

theorem start_loadfail_eq (env : Env) (st : ModuleState) (s : String) (e : JsError)
    (hs : s ≠ "") (hd : env.ensureDirError = none) (hl : env.loadError = some e) :
    start env st (JSValue.str s) =
      ({ db := some ((env.fs.ensureDir (dirname s)).readDb s) },
       env.fs.ensureDir (dirname s), Except.error e) := by
  unfold start startFileDb
  rw [truthy_str s hs, hd, hl]
  rfl

theorem start_file_ok_eq (env : Env) (st : ModuleState) (s : String)
    (hs : s ≠ "") (hd : env.ensureDirError = none) (hl : env.loadError = none) :
    start env st (JSValue.str s) =
      ({ db := some (ensureNodeCollections
          ((env.fs.ensureDir (dirname s)).readDb s)) },
       env.fs.ensureDir (dirname s), Except.ok ()) := by
  unfold start startFileDb
  rw [truthy_str s hs, hd, hl]
  rfl

theorem start_falsy_eq (env : Env) (st : ModuleState) (v : JSValue)
    (h : truthy v = false) :
    start env st v =
      ({ db := some (ensureNodeCollections { name := env.uuid, collections := [] }) },
       env.fs, Except.ok ()) := by
  unfold start startInMemory
  rw [h]
  rfl

end Lemmas

/-- An empty filesystem: no directories, no saved states. -/
def emptyFS : FS := { dirs := [], files := [] }

/-- A concrete environment in which every external operation succeeds. -/
def okEnv : Env :=
  { fs := emptyFS, ensureDirError := none, loadError := none, uuid := "mem-uuid" }

/-- A concrete environment in which the engine autoload fails. -/
def loadFailEnv : Env :=
  { fs := { dirs := ["tmp"], files := [] }, ensureDirError := none,
    loadError := some { message := "ENOENT" }, uuid := "mem-uuid2" }

/-- A concrete module state holding some engine handle. -/
def someHandleState : ModuleState :=
  { db := some { name := "x", collections := [] } }

/-- Claim C1: ensuring the meta-collections is idempotent — on any handle that
holds at most one collection of each reserved meta name (as every handle
produced by `start` does), running `ensureNodeCollections` leaves exactly one
`gatsby:nodeMeta` and one `gatsby:nodeTypes` collection, and running it a
second time changes nothing (and the engine add is non-erroring, so the model
is total). -/
theorem c1_ensureNodeCollections_idempotent (d : LokiDb)
    (h1 : countName d "gatsby:nodeMeta" ≤ 1)
    (h2 : countName d "gatsby:nodeTypes" ≤ 1) :
    ensureNodeCollections (ensureNodeCollections d) = ensureNodeCollections d ∧
    countName (ensureNodeCollections d) "gatsby:nodeMeta" = 1 ∧
    countName (ensureNodeCollections d) "gatsby:nodeTypes" = 1 := by
  refine ⟨ensure_of_has _ (ensure_has_meta d) (ensure_has_types d), ?_, ?_⟩
  · unfold ensureNodeCollections colls
    simp only [List.foldl_cons, List.foldl_nil]
    rw [countName_addCollection_other _ _ _ _ (by decide),
      countName_addCollection_same]
    by_cases h : (d.collections.any fun c => c.name == "gatsby:nodeMeta") = true
    · rw [if_pos h]
      have := countName_pos_of_any d _ h
      omega
    · rw [if_neg h, countName_eq_zero_of_not_any d _ (by simpa using h)]
  · unfold ensureNodeCollections colls
    simp only [List.foldl_cons, List.foldl_nil]
    rw [countName_addCollection_same, addCollection_any_other _ _ _ _ (by decide),
      countName_addCollection_other _ _ _ _ (by decide)]
    by_cases h : (d.collections.any fun c => c.name == "gatsby:nodeTypes") = true
    · rw [if_pos h]
      have := countName_pos_of_any d _ h
      omega
    · rw [if_neg h, countName_eq_zero_of_not_any d _ (by simpa using h)]

/-- Witness for C1 at the fresh in-memory handle. -/
theorem c1_witness :
    countName { name := "w", collections := [] } "gatsby:nodeMeta" ≤ 1 ∧
    countName { name := "w", collections := [] } "gatsby:nodeTypes" ≤ 1 ∧
    (ensureNodeCollections (ensureNodeCollections { name := "w", collections := [] }) =
        ensureNodeCollections { name := "w", collections := [] } ∧
      countName (ensureNodeCollections { name := "w", collections := [] })
          "gatsby:nodeMeta" = 1 ∧
      countName (ensureNodeCollections { name := "w", collections := [] })
          "gatsby:nodeTypes" = 1) :=
  ⟨by decide, by decide,
    c1_ensureNodeCollections_idempotent _ (by decide) (by decide)⟩

/-- Claim C2: after every successful `start` (file-backed or in-memory, over a
well-formed filesystem), the handle holds the id-index collection
`gatsby:nodeMeta` (unique and indexed on `id`) and the type-index collection
`gatsby:nodeTypes` (unique on the pair `type`, `collName` and indexed on
`type`), each with its declared configuration. -/
theorem c2_start_meta_collections (env : Env) (st st2 : ModuleState) (v : JSValue)
    (fs2 : FS) (hwf : env.fs.wellFormed)
    (h : start env st v = (st2, fs2, Except.ok ())) :
    ∃ d, st2.db = some d ∧ nodeMetaColl ∈ d.collections ∧
      nodeTypesColl ∈ d.collections := by
  by_cases h2 : truthy v = true
  · by_cases h1 : isString v = true
    · obtain ⟨s, rfl⟩ : ∃ s, v = JSValue.str s := by
        cases v <;> simp_all [isString]
      have hs : s ≠ "" := by
        intro hempty
        rw [hempty] at h2
        simp [truthy] at h2
      cases hd : env.ensureDirError with
      | some e =>
          rw [start_dirfail_eq env st s e hs hd] at h
          simp at h
      | none =>
          cases hl : env.loadError with
          | some e =>
              rw [start_loadfail_eq env st s e hs hd hl] at h
              simp at h
          | none =>
              rw [start_file_ok_eq env st s hs hd hl] at h
              simp only [Prod.mk.injEq] at h
              obtain ⟨hst, -, -⟩ := h
              subst hst
              exact ⟨_, rfl,
                (ensure_mem_of_ok _
                  (readDb_ok _ _ (ensureDir_wellFormed _ _ hwf))).1,
                (ensure_mem_of_ok _
                  (readDb_ok _ _ (ensureDir_wellFormed _ _ hwf))).2⟩
    · rw [start_nonstring_eq env st v h2 (by simpa using h1)] at h
      simp at h
  · rw [start_falsy_eq env st v (by simpa using h2)] at h
    simp only [Prod.mk.injEq] at h
    obtain ⟨hst, -, -⟩ := h
    subst hst
    exact ⟨_, rfl,
      (ensure_mem_of_ok _ (by intro c hc; simp at hc)).1,
      (ensure_mem_of_ok _ (by intro c hc; simp at hc)).2⟩

/-- Witness for C2 at a concrete in-memory start over the empty filesystem. -/
theorem c2_witness :
    emptyFS.wellFormed ∧
    (∃ d, (start okEnv initialState JSValue.undefined).1.db = some d ∧
      nodeMetaColl ∈ d.collections ∧ nodeTypesColl ∈ d.collections) :=
  ⟨by intro p cols hp; simp [emptyFS] at hp,
   c2_start_meta_collections okEnv initialState _ JSValue.undefined _
     (by intro p cols hp; simp [okEnv, emptyFS] at hp) rfl⟩

/-- Claim C3: if `start` was never called, the module state holds no handle and
`saveState` rejects with the plain string `No database found.`, whatever the
engine write outcome would have been — a NoActiveDatabase-class rejection. -/
theorem c3_saveState_no_handle (e : Option JsError) :
    saveState e initialState =
      Except.error (RejectionValue.jsString "No database found.") := rfl

/-- Claim C4 counterexample: `saveFile := false` is present and is not a
string, yet `start` resolves successfully and assigns an in-memory handle
instead of failing with the InvalidArgument-class error. -/
theorem c4_counterexample :
    (start okEnv initialState (JSValue.bool false)).2.2 = Except.ok () ∧
    getDb (start okEnv initialState (JSValue.bool false)).1 ≠ none :=
  ⟨rfl, by decide⟩

/-- Claim C4 as amended: for every truthy non-string `saveFile` value,
`start` fails with the InvalidArgument-class error `saveFile must be a path`
and leaves the module state (hence the handle) exactly as it was. -/
theorem c4_start_truthy_nonstring_rejects (env : Env) (st : ModuleState)
    (v : JSValue) (hv : truthy v = true) (hnv : isString v = false) :
    start env st v =
      (st, env.fs, Except.error { message := "saveFile must be a path" }) :=
  start_nonstring_eq env st v hv hnv

/-- Witness for the amended C4 at `saveFile := 5`. -/
theorem c4_witness :
    truthy (JSValue.num 5) = true ∧ isString (JSValue.num 5) = false ∧
    start okEnv initialState (JSValue.num 5) =
      (initialState, okEnv.fs,
       Except.error { message := "saveFile must be a path" }) :=
  ⟨rfl, rfl, c4_start_truthy_nonstring_rejects okEnv initialState _ rfl rfl⟩

/-- Claim C5: for a valid (non-empty string) `saveFile` with successful
external I/O, `start` ensures the parent directory of the path exists, opens
the engine against the path, and resolves only with the prior saved state at
that path loaded into the handle (with the meta-collections then ensured on
it); the directory is present in the resulting filesystem. -/
theorem c5_start_file_success (env : Env) (st : ModuleState) (s : String)
    (hs : s ≠ "") (hd : env.ensureDirError = none) (hl : env.loadError = none) :
    start env st (JSValue.str s) =
      ({ db := some (ensureNodeCollections
          ((env.fs.ensureDir (dirname s)).readDb s)) },
       env.fs.ensureDir (dirname s), Except.ok ()) ∧
    (env.fs.ensureDir (dirname s)).dirs.contains (dirname s) = true :=
  ⟨start_file_ok_eq env st s hs hd hl, ensureDir_contains _ _⟩

/-- Witness for C5 at the path `tmp/x/db.json` over the empty filesystem. -/
theorem c5_witness :
    ("tmp/x/db.json" : String) ≠ "" ∧
    okEnv.ensureDirError = none ∧ okEnv.loadError = none ∧
    (start okEnv initialState (JSValue.str "tmp/x/db.json") =
        ({ db := some (ensureNodeCollections
            ((okEnv.fs.ensureDir (dirname "tmp/x/db.json")).readDb
              "tmp/x/db.json")) },
         okEnv.fs.ensureDir (dirname "tmp/x/db.json"), Except.ok ()) ∧
      (okEnv.fs.ensureDir (dirname "tmp/x/db.json")).dirs.contains
        (dirname "tmp/x/db.json") = true) :=
  ⟨by decide, rfl, rfl,
   c5_start_file_success okEnv initialState _ (by decide) rfl rfl⟩

/-- Claim C6: with `saveFile` absent, `start` assigns a fresh in-memory handle
whose internal name is the randomly generated uuid, ensures the
meta-collections on it, resolves successfully, and leaves the filesystem
untouched (nothing is written to disk). -/
theorem c6_start_in_memory (env : Env) (st : ModuleState) :
    start env st JSValue.undefined =
      ({ db := some (ensureNodeCollections
          { name := env.uuid, collections := [] }) },
       env.fs, Except.ok ()) :=
  start_falsy_eq env st JSValue.undefined rfl

/-- Claim C7: with a handle present, `saveState` settles exactly as the
engine's write callback does — it rejects with the engine's error value
verbatim when the write fails, with no retry, and resolves when the write
succeeds. -/
theorem c7_saveState_engine_result (st : ModuleState) (d : LokiDb)
    (h : st.db = some d) :
    (∀ e, saveState (some e) st = Except.error (RejectionValue.jsError e)) ∧
    saveState none st = Except.ok () := by
  unfold saveState
  rw [h]
  exact ⟨fun e => rfl, rfl⟩

/-- Witness for C7 at a concrete handle and a disk-full engine error. -/
theorem c7_witness :
    someHandleState.db = some { name := "x", collections := [] } ∧
    saveState (some { message := "disk full" }) someHandleState =
      Except.error (RejectionValue.jsError { message := "disk full" }) :=
  ⟨rfl, (c7_saveState_engine_result someHandleState _ rfl).1 _⟩

/-- Claim C8 counterexample: after a successful in-memory `start` (no
`saveFile` ever configured), `saveState` resolves when the engine write
succeeds — it does not reject with the NoActiveDatabase-class rejection the
claim requires. -/
theorem c8_counterexample :
    saveState none (start okEnv initialState JSValue.undefined).1 =
      Except.ok () := rfl

/-- Claim C8 as amended: after a successful in-memory `start` the handle
exists, so `saveState` is delegated to the engine's write on that handle —
resolving when the write succeeds and rejecting with the engine's error when
it fails; the NoActiveDatabase-class rejection `No database found.` occurs
exactly when `start` was never called. -/
theorem c8_save_after_in_memory (env : Env) (st : ModuleState) :
    saveState none (start env st JSValue.undefined).1 = Except.ok () ∧
    (∀ e, saveState (some e) (start env st JSValue.undefined).1 =
      Except.error (RejectionValue.jsError e)) ∧
    (∀ e, saveState e initialState =
      Except.error (RejectionValue.jsString "No database found.")) :=
  ⟨rfl, fun _ => rfl, fun _ => rfl⟩

/-- Claim C9 counterexample: when the engine autoload fails, `start` rejects
with the engine error, yet `getDb` afterwards no longer returns the unset
result — the module-level handle was already assigned before the autoload
callback rejected. -/
theorem c9_counterexample :
    (start loadFailEnv initialState (JSValue.str "tmp/db.json")).2.2 =
      Except.error { message := "ENOENT" } ∧
    getDb (start loadFailEnv initialState (JSValue.str "tmp/db.json")).1 ≠
      getDb initialState :=
  ⟨rfl, by decide⟩

/-- Claim C9 as amended: a `start` failing on a truthy non-string `saveFile`
or on directory creation leaves the module state exactly as before, and a
file-backed `start` never falls back to in-memory mode — on an engine
open/load failure it rejects with that engine error, but the handle is left
assigned to the file-backed engine instance named by the save path (not the
random in-memory name), i.e. a half-initialized handle remains visible
through `getDb`. -/
theorem c9_start_failure_modes (env : Env) (st : ModuleState) (v : JSValue)
    (s : String) (e : JsError)
    (hv : truthy v = true) (hnv : isString v = false) (hs : s ≠ "") :
    start env st v =
      (st, env.fs, Except.error { message := "saveFile must be a path" }) ∧
    (env.ensureDirError = some e →
      start env st (JSValue.str s) = (st, env.fs, Except.error e)) ∧
    (env.ensureDirError = none → env.loadError = some e →
      (start env st (JSValue.str s)).2.2 = Except.error e ∧
      ∃ d, getDb (start env st (JSValue.str s)).1 = some d ∧ d.name = s) := by
  refine ⟨start_nonstring_eq env st v hv hnv, fun hd => ?_, fun hd hl => ?_⟩
  · exact start_dirfail_eq env st s e hs hd
  · rw [start_loadfail_eq env st s e hs hd hl]
    exact ⟨rfl, _, rfl, rfl⟩

/-- Witness for the amended C9 with a failing autoload at `tmp/db.json`. -/
theorem c9_witness :
    truthy (JSValue.bool true) = true ∧ isString (JSValue.bool true) = false ∧
    ("tmp/db.json" : String) ≠ "" ∧
    start loadFailEnv initialState (JSValue.bool true) =
      (initialState, loadFailEnv.fs,
       Except.error { message := "saveFile must be a path" }) :=
  ⟨rfl, rfl, by decide,
   (c9_start_failure_modes loadFailEnv initialState (JSValue.bool true)
     "tmp/db.json" { message := "ENOENT" } rfl rfl (by decide)).1⟩

/-- Claim C10: the guard rejects only truthy non-strings, so every falsy
`saveFile` value (undefined, null, false, 0, the empty string) is treated as
absent: `start` resolves with a fresh in-memory handle and the filesystem is
untouched — an empty-string path never reaches the filesystem. -/
theorem c10_start_falsy_in_memory (env : Env) (st : ModuleState) (v : JSValue)
    (h : truthy v = false) :
    start env st v =
      ({ db := some (ensureNodeCollections
          { name := env.uuid, collections := [] }) },
       env.fs, Except.ok ()) :=
  start_falsy_eq env st v h

/-- Witness for C10 at the falsy value `saveFile := ""`. -/
theorem c10_witness :
    truthy (JSValue.str "") = false ∧
    start okEnv initialState (JSValue.str "") =
      ({ db := some (ensureNodeCollections
          { name := "mem-uuid", collections := [] }) },
       okEnv.fs, Except.ok ()) :=
  ⟨rfl, c10_start_falsy_in_memory okEnv initialState _ rfl⟩

end GatsbyLoki
